import Mathlib

/-!
# Verification of the DPP pilot backend core

A shallow embedding of the core data transformations of the AAS/DPP backend
(`app/services/dpp` and `app/services/aas`), together with proofs and
refutations of the specified properties.

Conventions:
* Python dictionaries are modelled as insertion-ordered association lists
  (`List (String × α)`) with first-key lookup and in-place overwrite, matching
  CPython dict semantics under the unique-key invariant maintained by the code.
* Python `None`/JSON `null` is `Json.null` resp. `PyVal.none`.
* Exceptions are modelled with `Except`; the textual payload of an exception
  reproduces the f-string of the source, except that Python's quote characters
  around interpolated names are elided.
-/

namespace DppPilot

/-- JSON-like values as handled by the DPP post-processing utilities
(`dict` / `list` / scalars).  Objects keep their insertion order. -/
inductive Json where
  | null
  | str (s : String)
  | num (q : Rat)
  | bool (b : Bool)
  | obj (fields : List (String × Json))
  | arr (items : List Json)

/-- `v is not None` is false exactly on the null constructor. -/
def Json.isNull : Json → Bool
  | .null => true
  | _ => false

/-- The path used in the *preserve check* for a dict entry:
`f"{current_path}.{k}"` — note the source applies this unconditionally,
also when `current_path` is empty (`app/services/dpp/utils.py`, line 28). -/
def childCheckPath (cur k : String) : String := cur ++ "." ++ k

/-- The path passed to the *recursive call* for a dict entry:
`f"{current_path}.{k}" if current_path else k`
(`app/services/dpp/utils.py`, lines 22-24). -/
def childRecPath (cur k : String) : String := if cur = "" then k else cur ++ "." ++ k

/-- The path of a list item: `f"{current_path}[{i}]"`
(`app/services/dpp/utils.py`, lines 32-34). -/
def idxPath (cur : String) (i : Nat) : String := cur ++ "[" ++ toString i ++ "]"

mutual
/-- `_clean_nulls_with_path` from `app/services/dpp/utils.py` (lines 19-37):
the recursive worker of `clean_nulls`, carrying the current dotted path. -/
def cleanAt (P : List String) (cur : String) : Json → Json
  | .obj fields => .obj (cleanFieldsAt P cur fields)
  | .arr items => .arr (cleanItemsAt P cur 0 items)
  | v => v

/-- The dict comprehension of `_clean_nulls_with_path` (lines 20-29): an entry
is kept iff its value is non-null, or the dict's own path is preserved, or the
entry's fully-qualified path is preserved. -/
def cleanFieldsAt (P : List String) (cur : String) : List (String × Json) → List (String × Json)
  | [] => []
  | (k, v) :: rest =>
    (if v.isNull = false ∨ cur ∈ P ∨ childCheckPath cur k ∈ P then
      [(k, cleanAt P (childRecPath cur k) v)] else [])
    ++ cleanFieldsAt P cur rest

/-- The list comprehension of `_clean_nulls_with_path` (lines 30-35): an item
is kept iff it is non-null or its indexed path is preserved; indices are the
positions in the *original* list. -/
def cleanItemsAt (P : List String) (cur : String) (i : Nat) : List Json → List Json
  | [] => []
  | v :: rest =>
    (if v.isNull = false ∨ idxPath cur i ∈ P then [cleanAt P (idxPath cur i) v] else [])
    ++ cleanItemsAt P cur (i + 1) rest
end

/-- `clean_nulls(obj, preserve_paths)` from `app/services/dpp/utils.py`:
entry point, starting the traversal at the empty path. -/
def clean_nulls (obj : Json) (preserve_paths : List String) : Json :=
  cleanAt preserve_paths "" obj

/-! ### Structure-preservation helper lemmas -/

/-- The cleaning worker never turns a non-null value into null (and keeps null null). -/
theorem cleanAt_isNull (P : List String) (cur : String) (v : Json) :
    (cleanAt P cur v).isNull = v.isNull := by
  cases v <;> rfl

/-- A string contains a `[` character (bracket-index notation). -/
def HasBracket (s : String) : Prop := '[' ∈ s.data

/-- A preserve-set that names no list index: none of its paths contains `[`. -/
def BracketFree (P : List String) : Prop := ∀ q ∈ P, ¬ HasBracket q

instance : DecidablePred HasBracket := fun s =>
  inferInstanceAs (Decidable ('[' ∈ s.data))

instance (P : List String) : Decidable (BracketFree P) :=
  inferInstanceAs (Decidable (∀ q ∈ P, ¬ HasBracket q))

theorem hasBracket_append_left (a b : String) (h : HasBracket a) : HasBracket (a ++ b) := by
  unfold HasBracket at *
  rw [String.data_append]
  exact List.mem_append_left _ h

theorem hasBracket_append_right (a b : String) (h : HasBracket b) : HasBracket (a ++ b) := by
  unfold HasBracket at *
  rw [String.data_append]
  exact List.mem_append_right _ h

theorem hasBracket_idxPath (cur : String) (i : Nat) : HasBracket (idxPath cur i) :=
  hasBracket_append_left (cur ++ "[" ++ toString i) "]"
    (hasBracket_append_left (cur ++ "[") (toString i)
      (hasBracket_append_right cur "[" (by decide)))

theorem hasBracket_childCheckPath (cur k : String) (h : HasBracket cur) :
    HasBracket (childCheckPath cur k) :=
  hasBracket_append_left (cur ++ ".") k (hasBracket_append_left cur "." h)

theorem hasBracket_ne_empty (s : String) (h : HasBracket s) : s ≠ "" := by
  rintro rfl
  exact absurd h (by decide)

theorem hasBracket_childRecPath (cur k : String) (h : HasBracket cur) :
    HasBracket (childRecPath cur k) := by
  unfold childRecPath
  rw [if_neg (hasBracket_ne_empty cur h)]
  exact hasBracket_append_left (cur ++ ".") k (hasBracket_append_left cur "." h)

/-! ### Pruning with no preserve-set (used to analyse bracketed, "dead" paths) -/

mutual
/-- Pure null-removal: `clean_nulls` with an empty preserve-set; it does not
depend on the current path. -/
def pruneAll : Json → Json
  | .obj fields => .obj (pruneAllFields fields)
  | .arr items => .arr (pruneAllItems items)
  | v => v

def pruneAllFields : List (String × Json) → List (String × Json)
  | [] => []
  | (k, v) :: rest =>
    (if v.isNull = false then [(k, pruneAll v)] else []) ++ pruneAllFields rest

def pruneAllItems : List Json → List Json
  | [] => []
  | v :: rest =>
    (if v.isNull = false then [pruneAll v] else []) ++ pruneAllItems rest
end

theorem pruneAll_isNull (v : Json) : (pruneAll v).isNull = v.isNull := by
  cases v <;> rfl

mutual
theorem pruneAll_idem : ∀ v : Json, pruneAll (pruneAll v) = pruneAll v
  | .null => rfl
  | .str _ => rfl
  | .num _ => rfl
  | .bool _ => rfl
  | .obj fs => congrArg Json.obj (pruneAllFields_idem fs)
  | .arr xs => congrArg Json.arr (pruneAllItems_idem xs)

theorem pruneAllFields_idem :
    ∀ fs : List (String × Json), pruneAllFields (pruneAllFields fs) = pruneAllFields fs
  | [] => rfl
  | (k, v) :: rest => by
      have hrest := pruneAllFields_idem rest
      by_cases hv : v.isNull = false
      · have h2 : (pruneAll v).isNull = false := by rw [pruneAll_isNull]; exact hv
        have hidem := pruneAll_idem v
        simp [pruneAllFields, hv, h2, hidem, hrest]
      · simp [pruneAllFields, hv, hrest]

theorem pruneAllItems_idem :
    ∀ xs : List Json, pruneAllItems (pruneAllItems xs) = pruneAllItems xs
  | [] => rfl
  | v :: rest => by
      have hrest := pruneAllItems_idem rest
      by_cases hv : v.isNull = false
      · have h2 : (pruneAll v).isNull = false := by rw [pruneAll_isNull]; exact hv
        have hidem := pruneAll_idem v
        simp [pruneAllItems, hv, h2, hidem, hrest]
      · simp [pruneAllItems, hv, hrest]
end

/-! ### On a bracketed ("dead") path a bracket-free preserve-set never fires -/

mutual
theorem cleanAt_dead (P : List String) (hP : BracketFree P) (cur : String)
    (hc : HasBracket cur) : ∀ v : Json, cleanAt P cur v = pruneAll v
  | .null => rfl
  | .str _ => rfl
  | .num _ => rfl
  | .bool _ => rfl
  | .obj fs => congrArg Json.obj (cleanFieldsAt_dead P hP cur hc fs)
  | .arr xs => congrArg Json.arr (cleanItemsAt_dead P hP cur 0 xs)

theorem cleanFieldsAt_dead (P : List String) (hP : BracketFree P) (cur : String)
    (hc : HasBracket cur) :
    ∀ fs : List (String × Json), cleanFieldsAt P cur fs = pruneAllFields fs
  | [] => rfl
  | (k, v) :: rest => by
      have h1 : cur ∉ P := fun h => hP cur h hc
      have h2 : childCheckPath cur k ∉ P :=
        fun h => hP _ h (hasBracket_childCheckPath cur k hc)
      have hd := cleanAt_dead P hP (childRecPath cur k) (hasBracket_childRecPath cur k hc) v
      have hr := cleanFieldsAt_dead P hP cur hc rest
      by_cases hv : v.isNull = false
      · simp [cleanFieldsAt, pruneAllFields, hv, hd, hr]
      · simp [cleanFieldsAt, pruneAllFields, hv, h1, h2, hr]

theorem cleanItemsAt_dead (P : List String) (hP : BracketFree P) (cur : String) :
    ∀ (i : Nat) (xs : List Json), cleanItemsAt P cur i xs = pruneAllItems xs
  | i, [] => rfl
  | i, v :: rest => by
      have h1 : idxPath cur i ∉ P := fun h => hP _ h (hasBracket_idxPath cur i)
      have hd := cleanAt_dead P hP (idxPath cur i) (hasBracket_idxPath cur i) v
      have hr := cleanItemsAt_dead P hP cur (i + 1) rest
      by_cases hv : v.isNull = false
      · simp [cleanItemsAt, pruneAllItems, hv, hd, hr]
      · simp [cleanItemsAt, pruneAllItems, hv, h1, hr]
end

/-! ### Idempotence for bracket-free preserve-sets -/

mutual
theorem cleanAt_idem (P : List String) (hP : BracketFree P) :
    ∀ (cur : String) (v : Json), cleanAt P cur (cleanAt P cur v) = cleanAt P cur v
  | _, .null => rfl
  | _, .str _ => rfl
  | _, .num _ => rfl
  | _, .bool _ => rfl
  | cur, .obj fs => congrArg Json.obj (cleanFieldsAt_idem P hP cur fs)
  | cur, .arr xs => by
      show Json.arr (cleanItemsAt P cur 0 (cleanItemsAt P cur 0 xs))
          = Json.arr (cleanItemsAt P cur 0 xs)
      rw [cleanItemsAt_dead P hP cur 0 xs,
        cleanItemsAt_dead P hP cur 0 (pruneAllItems xs), pruneAllItems_idem xs]

theorem cleanFieldsAt_idem (P : List String) (hP : BracketFree P) :
    ∀ (cur : String) (fs : List (String × Json)),
      cleanFieldsAt P cur (cleanFieldsAt P cur fs) = cleanFieldsAt P cur fs
  | cur, [] => rfl
  | cur, (k, v) :: rest => by
      have hrest := cleanFieldsAt_idem P hP cur rest
      by_cases hC : (v.isNull = false ∨ cur ∈ P ∨ childCheckPath cur k ∈ P)
      · have hC2 : ((cleanAt P (childRecPath cur k) v).isNull = false
            ∨ cur ∈ P ∨ childCheckPath cur k ∈ P) := by
          rcases hC with hv | h | h
          · left; rw [cleanAt_isNull]; exact hv
          · right; left; exact h
          · right; right; exact h
        have hv := cleanAt_idem P hP (childRecPath cur k) v
        simp only [cleanFieldsAt, if_pos hC, List.singleton_append]
        simp only [cleanFieldsAt, if_pos hC2, List.singleton_append]
        rw [hv, hrest]
      · simp only [cleanFieldsAt, if_neg hC, List.nil_append]
        exact hrest
end

/-- **C2 (counterexample).** With a preserve-set naming a list index, pruning is
*not* idempotent: on `["a", null, null]` with preserve-set containing the path of
index 2, the first pass keeps the preserved null but shifts it to index 1, and
the second pass drops it. -/
theorem C2_clean_nulls_index_preserve_not_idempotent :
    clean_nulls (clean_nulls (Json.arr [Json.str "a", Json.null, Json.null]) ["[2]"]) ["[2]"]
      ≠ clean_nulls (Json.arr [Json.str "a", Json.null, Json.null]) ["[2]"] := by
  have h1 : clean_nulls (Json.arr [Json.str "a", Json.null, Json.null]) ["[2]"]
      = Json.arr [Json.str "a", Json.null] := rfl
  have h2 : clean_nulls (Json.arr [Json.str "a", Json.null]) ["[2]"]
      = Json.arr [Json.str "a"] := rfl
  rw [h1, h2]
  simp

/-- **C2 (amended).** Null-pruning is idempotent for every preserve-set none of
whose paths contains a list-index bracket: `prune(prune(v, P), P) = prune(v, P)`
whenever no path in `P` contains `[`. -/
theorem C2_clean_nulls_idem_of_bracketFree (P : List String) (v : Json)
    (hP : BracketFree P) : clean_nulls (clean_nulls v P) P = clean_nulls v P :=
  cleanAt_idem P hP "" v

/-- Witness for C2 (amended) at a concrete bracket-free preserve-set and value. -/
theorem C2_clean_nulls_idem_witness :
    BracketFree ["product.serial"] ∧
      clean_nulls (clean_nulls
          (Json.obj [("product", Json.obj [("serial", Json.null), ("note", Json.null)]),
            ("x", Json.null)]) ["product.serial"]) ["product.serial"]
        = clean_nulls
            (Json.obj [("product", Json.obj [("serial", Json.null), ("note", Json.null)]),
              ("x", Json.null)]) ["product.serial"] :=
  ⟨by decide, C2_clean_nulls_idem_of_bracketFree _ _ (by decide)⟩

/-- **C10.** If a dict's own path `p` is in the preserve-set, the cleaning worker
keeps *every* entry of the dict, in particular every null-valued entry: cleaning
`obj fs` at path `p` yields `obj (cleanFieldsAt P p fs)`, and each `(k, null)`
entry of `fs` is still present there. -/
theorem C10_dict_path_preserves_null_entries (P : List String) (p : String)
    (fs : List (String × Json)) (k : String) (hp : p ∈ P)
    (hk : (k, Json.null) ∈ fs) :
    cleanAt P p (Json.obj fs) = Json.obj (cleanFieldsAt P p fs)
      ∧ (k, Json.null) ∈ cleanFieldsAt P p fs := by
  refine ⟨rfl, ?_⟩
  induction fs with
  | nil => cases hk
  | cons hd rest ih =>
      obtain ⟨k0, v0⟩ := hd
      rcases List.mem_cons.mp hk with h | h
      · obtain ⟨hk0, hv0⟩ := Prod.mk.injEq .. ▸ h
        subst hk0
        subst hv0
        have hcond : (Json.null.isNull = false ∨ p ∈ P ∨ childCheckPath p k ∈ P) :=
          Or.inr (Or.inl hp)
        simp only [cleanFieldsAt, if_pos hcond, List.singleton_append]
        exact List.mem_cons_self _ _
      · have := ih h
        simp only [cleanFieldsAt]
        exact List.mem_append_right _ this

/-- Witness for C10 at a concrete dict whose own path is preserved. -/
theorem C10_dict_path_preserves_null_entries_witness :
    "cfg" ∈ ["cfg"] ∧ ("a", Json.null) ∈ [("a", Json.null), ("b", Json.str "x")] ∧
      (cleanAt ["cfg"] "cfg" (Json.obj [("a", Json.null), ("b", Json.str "x")])
          = Json.obj (cleanFieldsAt ["cfg"] "cfg" [("a", Json.null), ("b", Json.str "x")])
        ∧ ("a", Json.null) ∈ cleanFieldsAt ["cfg"] "cfg" [("a", Json.null), ("b", Json.str "x")]) :=
  ⟨by decide, by simp,
    C10_dict_path_preserves_null_entries ["cfg"] "cfg"
      [("a", Json.null), ("b", Json.str "x")] "a" (by decide) (by simp)⟩

/-! ## Python values, exceptions and string helpers

The converter and the update service operate on untyped Python values
(JSON-decoded request payloads and BaSyx property values).  String operations
are modelled over `List Char` by structural recursion, following the semantics
of the corresponding `str` methods. -/

/-- Python runtime values reachable in the modelled code paths. -/
inductive PyVal where
  | none
  | str (s : String)
  | int (n : Int)
  | float (q : Rat)
  | bool (b : Bool)
  | dateVal (y m d : Nat)
  | dateTimeVal (y mo d h mi s : Nat)
  | list (xs : List PyVal)
  | dict (kvs : List (String × PyVal))

/-- Python exceptions raised in the modelled code paths. -/
inductive PyErr where
  | valueError (msg : String)
  | typeError (msg : String)
  | keyError (key : String)
  | attributeError (typeName attrName : String)

/-- The `except (ValueError, TypeError)` guard of `convert_value`. -/
def PyErr.isValueOrTypeError : PyErr → Bool
  | .valueError _ => true
  | .typeError _ => true
  | _ => false

/-- `value is None or value == ""`: only `None` and the empty string satisfy
the null check of `convert_value` (equality with `""` holds for no other
modelled value). -/
def PyVal.isNoneOrEmpty : PyVal → Bool
  | .none => true
  | .str "" => true
  | _ => false

/-- Zero-pad a numeral to two digits (for `str(date)` / `str(datetime)`). -/
def pad2 (n : Nat) : String := if n < 10 then "0" ++ toString n else toString n

/-- Zero-pad a year to four digits. -/
def pad4 (n : Nat) : String :=
  if n < 10 then "000" ++ toString n
  else if n < 100 then "00" ++ toString n
  else if n < 1000 then "0" ++ toString n
  else toString n

mutual
/-- Python `str(value)` for the modelled values.  For containers the quote
characters Python's `repr` puts around string elements are elided (no modelled
code path formats a container into an error message). -/
def pyStr : PyVal → String
  | .none => "None"
  | .str s => s
  | .int n => toString n
  | .float q => toString q
  | .bool b => if b then "True" else "False"
  | .dateVal y m d => pad4 y ++ "-" ++ pad2 m ++ "-" ++ pad2 d
  | .dateTimeVal y mo d h mi s =>
      pad4 y ++ "-" ++ pad2 mo ++ "-" ++ pad2 d ++ " "
        ++ pad2 h ++ ":" ++ pad2 mi ++ ":" ++ pad2 s
  | .list xs => "[" ++ pyStrList xs ++ "]"
  | .dict kvs => "\x7b" ++ pyStrDict kvs ++ "\x7d"

def pyStrList : List PyVal → String
  | [] => ""
  | [v] => pyStr v
  | v :: rest => pyStr v ++ ", " ++ pyStrList rest

def pyStrDict : List (String × PyVal) → String
  | [] => ""
  | [(k, v)] => k ++ ": " ++ pyStr v
  | (k, v) :: rest => k ++ ": " ++ pyStr v ++ ", " ++ pyStrDict rest
end

/-- Python type name, for `TypeError` messages (unexercised by the claims). -/
def pyTypeName : PyVal → String
  | .none => "NoneType"
  | .str _ => "str"
  | .int _ => "int"
  | .float _ => "float"
  | .bool _ => "bool"
  | .dateVal _ _ _ => "date"
  | .dateTimeVal _ _ _ _ _ _ => "datetime"
  | .list _ => "list"
  | .dict _ => "dict"

/-- Strip leading and trailing whitespace (`str.strip()`). -/
def stripChars (cs : List Char) : List Char :=
  ((cs.dropWhile Char.isWhitespace).reverse.dropWhile Char.isWhitespace).reverse

/-- Digits-to-numeral accumulation for a base-10 literal. -/
def digitsToNat (cs : List Char) : Nat :=
  cs.foldl (fun a c => a * 10 + (c.toNat - 48)) 0

/-- Python `int(string)`: optional surrounding whitespace, optional sign, at
least one decimal digit (digit-group underscores are not modelled; no caller
passes them). -/
def pyIntParse (s : String) : Except PyErr Int :=
  let core : List Char → Except PyErr Int := fun cs =>
    if cs ≠ [] ∧ cs.all Char.isDigit then .ok (digitsToNat cs)
    else .error (.valueError ("invalid literal for int with base 10: " ++ s))
  match stripChars s.data with
  | '-' :: rest => (core rest).map (fun n => -n)
  | '+' :: rest => core rest
  | cs => core cs

/-- Python `int(value)` over the modelled values: ints pass through, booleans
become 0/1, floats truncate toward zero, strings are parsed, anything else is
a `TypeError`. -/
def pyInt : PyVal → Except PyErr Int
  | .int n => .ok n
  | .bool b => .ok (if b then 1 else 0)
  | .float q => .ok (q.num / (q.den : Int))
  | .str s => pyIntParse s
  | v => .error (.typeError ("int argument must be a string or a number, not " ++ pyTypeName v))

/-- Python `float(value)` over the modelled values, returning a rational.
String parsing covers the plain `[sign] digits [. digits]` decimal forms (the
exponent and inf/nan forms are not modelled; no claim exercises them). -/
def pyFloat : PyVal → Except PyErr Rat
  | .float q => .ok q
  | .int n => .ok n
  | .bool b => .ok (if b then 1 else 0)
  | .str s =>
    let core : List Char → Except PyErr Rat := fun cs =>
      match cs.splitOn '.' with
      | [intPart] =>
          if intPart ≠ [] ∧ intPart.all Char.isDigit then .ok (digitsToNat intPart)
          else .error (.valueError ("could not convert string to float: " ++ s))
      | [intPart, fracPart] =>
          if (intPart ++ fracPart) ≠ [] ∧ (intPart ++ fracPart).all Char.isDigit then
            .ok ((digitsToNat intPart : Rat)
              + (digitsToNat fracPart : Rat) / ((10 : Rat) ^ fracPart.length))
          else .error (.valueError ("could not convert string to float: " ++ s))
      | _ => .error (.valueError ("could not convert string to float: " ++ s))
    (match stripChars s.data with
      | '-' :: rest => (core rest).map (fun q => -q)
      | '+' :: rest => core rest
      | cs => core cs)
  | v => .error (.typeError ("float argument must be a string or a number, not " ++ pyTypeName v))

/-- Leap-year rule used by `datetime.date` validation. -/
def isLeapYear (y : Nat) : Bool := y % 4 = 0 && (y % 100 ≠ 0 || y % 400 = 0)

/-- Days in a month, for `strptime` day-of-month validation. -/
def daysInMonth (y m : Nat) : Nat :=
  if m = 2 then (if isLeapYear y then 29 else 28)
  else if m = 4 ∨ m = 6 ∨ m = 9 ∨ m = 11 then 30
  else 31

/-- A 1-2 digit `strptime` field (`%m`, `%d`, `%H`, `%M`, `%S`). -/
def parseField2 (s : String) : Option Nat :=
  if s.data ≠ [] ∧ s.data.length ≤ 2 ∧ s.data.all Char.isDigit then
    some (digitsToNat s.data)
  else Option.none

/-- A 1-4 digit `strptime` year field (`%Y`). -/
def parseField4 (s : String) : Option Nat :=
  if s.data ≠ [] ∧ s.data.length ≤ 4 ∧ s.data.all Char.isDigit then
    some (digitsToNat s.data)
  else Option.none

/-- Split a character list on a single separator character (`str.split(sep)`
for a one-character separator). -/
def splitChar (sep : Char) : List Char → List (List Char)
  | [] => [[]]
  | c :: rest =>
    let r := splitChar sep rest
    if c = sep then [] :: r
    else match r with
      | h :: t => (c :: h) :: t
      | [] => [[c]]

/-- `str.split(sep)` for a one-character separator, on strings. -/
def pySplitChar (sep : Char) (s : String) : List String :=
  (splitChar sep s.data).map String.mk

/-- Validate and build a date triple the way `strptime` plus `date()` does. -/
def mkValidDate (y m d : Nat) : Option (Nat × Nat × Nat) :=
  if 1 ≤ m ∧ m ≤ 12 ∧ 1 ≤ d ∧ d ≤ daysInMonth y m then some (y, m, d) else Option.none

/-- `datetime.strptime(value, fmt).date()` for one of the four date format
candidates of `convert_value`; `sep` is the separator character and `order`
tells where the year stands (`true`: year first, as in `%Y-%m-%d`;
`false`: year last, day/month in the first two fields). -/
def strptimeDate (sep : Char) (yearFirst : Bool) (firstIsDay : Bool) (s : String) :
    Option (Nat × Nat × Nat) :=
  match pySplitChar sep s with
  | [a, b, c] =>
    if yearFirst then
      match parseField4 a, parseField2 b, parseField2 c with
      | some y, some m, some d => mkValidDate y m d
      | _, _, _ => Option.none
    else
      match parseField2 a, parseField2 b, parseField4 c with
      | some f1, some f2, some y =>
          if firstIsDay then mkValidDate y f2 f1 else mkValidDate y f1 f2
      | _, _, _ => Option.none
  | _ => Option.none

/-- The four date format candidates tried in order by the `xs:date` branch:
`%Y-%m-%d`, `%d-%m-%Y`, `%m/%d/%Y`, `%d/%m/%Y` (first success wins). -/
def tryDateFormats (s : String) : Option (Nat × Nat × Nat) :=
  match strptimeDate '-' true false s with
  | some r => some r
  | Option.none =>
  match strptimeDate '-' false true s with
  | some r => some r
  | Option.none =>
  match strptimeDate '/' false false s with
  | some r => some r
  | Option.none => strptimeDate '/' false true s

/-- `%H:%M:%S` time-of-day component. -/
def strptimeTime (s : String) : Option (Nat × Nat × Nat) :=
  match pySplitChar ':' s with
  | [a, b, c] =>
    match parseField2 a, parseField2 b, parseField2 c with
    | some h, some mi, some se =>
        if h ≤ 23 ∧ mi ≤ 59 ∧ se ≤ 59 then some (h, mi, se) else Option.none
    | _, _, _ => Option.none
  | _ => Option.none

/-- One datetime format candidate: date part and `%H:%M:%S` part joined by
`sep` (`T` or a space), with the date part in `%Y-%m-%d` or `%d-%m-%Y` order. -/
def strptimeDateTime (sep : Char) (yearFirst : Bool) (s : String) :
    Option (Nat × Nat × Nat × Nat × Nat × Nat) :=
  match pySplitChar sep s with
  | [d, t] =>
    match (if yearFirst then strptimeDate '-' true false d
           else strptimeDate '-' false true d), strptimeTime t with
    | some (y, mo, da), some (h, mi, se) => some (y, mo, da, h, mi, se)
    | _, _ => Option.none
  | _ => Option.none

/-- The three datetime format candidates tried in order by the `xs:dateTime`
branch: `%Y-%m-%dT%H:%M:%S`, `%Y-%m-%d %H:%M:%S`, `%d-%m-%Y %H:%M:%S`. -/
def tryDateTimeFormats (s : String) : Option (Nat × Nat × Nat × Nat × Nat × Nat) :=
  match strptimeDateTime 'T' true s with
  | some r => some r
  | Option.none =>
  match strptimeDateTime ' ' true s with
  | some r => some r
  | Option.none => strptimeDateTime ' ' false s

/-- `urllib.parse.urlparse(s)` restricted to the `(scheme, netloc)` pair, for
the `scheme://netloc/...` shapes the URI branch accepts (an approximation of
the stdlib parser: forms without `//` yield an empty netloc, which the branch
rejects anyway). -/
def urlparseSchemeNetloc (s : String) : String × String :=
  match splitChar ':' s.data with
  | scheme :: rest =>
    if rest ≠ [] ∧ scheme ≠ [] ∧ scheme.all (fun c => c.isAlpha || c.isDigit || c = '+' || c = '-' || c = '.') then
      match String.mk (List.intercalate [':'] rest) with
      | after =>
        if after.data.take 2 = ['/', '/'] then
          (String.mk scheme, String.mk ((after.data.drop 2).takeWhile (fun c => c ≠ '/' ∧ c ≠ '?' ∧ c ≠ '#')))
        else (String.mk scheme, "")
    else ("", "")
  | [] => ("", "")

/-! ## The typed value converter

`convert_value(value, expected_type)` from `app/services/aas/utils.py`
(lines 35-156).  The declared type arrives from the stored element as a BaSyx
datatype; the python-builtin and XSD-string aliasing steps of lines 44-58 are
identity on this tag representation, and the unknown-tag branches (lines 56-57
and 155-156) raise before any per-value logic, so they are outside every
per-value claim. -/

/-- The ten supported declared value types (`get_basyx_type`, lines 18-32). -/
inductive XsdType where
  | string
  | integer
  | long
  | unsignedLong
  | double
  | float
  | boolean
  | date
  | dateTime
  | anyURI
  deriving DecidableEq

/-- The `try ... except (ValueError, TypeError): raise ValueError(msg)` wrapper
put around each numeric branch of `convert_value`: a `ValueError` or
`TypeError` from the body is replaced by the branch's generic message. -/
def catchValueType (attempt : Except PyErr PyVal) (msg : String) : Except PyErr PyVal :=
  match attempt with
  | .ok r => .ok r
  | .error e => if e.isValueOrTypeError then .error (.valueError msg) else .error e

/-- `convert_value` from `app/services/aas/utils.py`, lines 35-156.  The BaSyx
`trivial_cast` constructor calls are modelled as the identity on the parsed
value: the SDK-side cast is an external collaborator and no claim exercises its
own validation. -/
def convert_value (value : PyVal) (expected_type : XsdType) : Except PyErr PyVal :=
  -- lines 38-41: null check before any dispatch
  if value.isNoneOrEmpty then
    if expected_type = .anyURI then .ok (.str "") else .ok .none
  else
    match expected_type with
    | .string => .ok (.str (pyStr value))
    | .long =>
      catchValueType ((pyInt value).map PyVal.int)
        ("Cannot convert " ++ pyStr value ++ " to xs:long.")
    | .integer =>
      catchValueType ((pyInt value).map PyVal.int)
        ("Cannot convert " ++ pyStr value ++ " to xs:integer.")
    | .unsignedLong =>
      -- lines 75-83: the negative check raises inside the same try whose
      -- except clause replaces the error with the generic message (and the
      -- generic xs:unsignedLong message carries no trailing period)
      catchValueType
        (match pyInt value with
          | .error e => .error e
          | .ok n =>
            if n < 0 then .error (.valueError "UnsignedLong cannot be negative")
            else .ok (.int n))
        ("Cannot convert " ++ pyStr value ++ " to xs:unsignedLong")
    | .float =>
      catchValueType ((pyFloat value).map PyVal.float)
        ("Cannot convert " ++ pyStr value ++ " to xs:float.")
    | .double =>
      catchValueType ((pyFloat value).map PyVal.float)
        ("Cannot convert " ++ pyStr value ++ " to xs:double.")
    | .boolean =>
      (match value with
        | .bool b => .ok (.bool b)
        | .str s =>
          let l := String.mk (s.data.map Char.toLower)
          if l = "true" ∨ l = "1" then .ok (.bool true)
          else if l = "false" ∨ l = "0" then .ok (.bool false)
          else .error (.valueError ("Cannot convert " ++ pyStr value ++ " to xs:boolean."))
        | _ => .error (.valueError ("Cannot convert " ++ pyStr value ++ " to xs:boolean.")))
    | .date =>
      (match value with
        | .dateTimeVal y mo d _ _ _ => .ok (.dateVal y mo d)
        | .str s =>
          (match tryDateFormats s with
            | some (y, m, d) => .ok (.dateVal y m d)
            | Option.none =>
                .error (.valueError ("Cannot convert " ++ pyStr value
                  ++ " to xs:date. Expected format: YYYY-MM-DD.")))
        | _ => .error (.valueError ("Cannot convert " ++ pyStr value
            ++ " to xs:date. Expected format: YYYY-MM-DD.")))
    | .dateTime =>
      (match value with
        | .dateTimeVal y mo d h mi s => .ok (.dateTimeVal y mo d h mi s)
        | .str s =>
          (match tryDateTimeFormats s with
            | some (y, mo, d, h, mi, se) => .ok (.dateTimeVal y mo d h mi se)
            | Option.none =>
                .error (.valueError ("Cannot convert " ++ pyStr value
                  ++ " to xs:dateTime. Expected format: YYYY-MM-DDTHH:MM:SS.")))
        | _ => .error (.valueError ("Cannot convert " ++ pyStr value
            ++ " to xs:dateTime. Expected format: YYYY-MM-DDTHH:MM:SS.")))
    | .anyURI =>
      (match value with
        | .str s =>
          let (scheme, netloc) := urlparseSchemeNetloc s
          if scheme ≠ "" ∧ netloc ≠ "" then .ok (.str s)
          else .error (.valueError ("Cannot convert " ++ pyStr value ++ " to xs:anyURI."))
        | v => .error (.typeError ("Cannot parse " ++ pyTypeName v ++ " as a URL")))

/-- **C7.** For every declared value type, `None` and `""` are mapped to null,
except for `xs:anyURI` where both are mapped to the empty string: the null
check of `convert_value` precedes all per-type dispatch. -/
theorem C7_convert_null_empty_inputs (t : XsdType) :
    convert_value PyVal.none t
        = .ok (if t = XsdType.anyURI then PyVal.str "" else PyVal.none)
      ∧ convert_value (PyVal.str "") t
        = .ok (if t = XsdType.anyURI then PyVal.str "" else PyVal.none) := by
  constructor <;> cases t <;> rfl

/-- **C3 (code-bug evaluation).** `convert_value("-1", UnsignedLong)` does *not*
surface the dedicated negative-value error: the
`ValueError("UnsignedLong cannot be negative")` raised on line 80 is caught by
the branch's own `except (ValueError, TypeError)` on line 82 and replaced by the
same generic message template that an unparseable input such as `"abc"`
produces. -/
theorem C3_unsignedLong_negative_error_is_generic :
    convert_value (PyVal.str "-1") XsdType.unsignedLong
        = .error (.valueError "Cannot convert -1 to xs:unsignedLong")
      ∧ convert_value (PyVal.str "abc") XsdType.unsignedLong
        = .error (.valueError "Cannot convert abc to xs:unsignedLong") :=
  ⟨rfl, rfl⟩

/-! ## Python dictionaries

Insertion-ordered association lists with unique keys: `dictGet` is `d.get(k)`
(first — and only — occurrence), `dictInsert` is `d[k] = v`, which overwrites
in place (keeping the key's original position) or appends a fresh key. -/

def dictGet {α : Type} : List (String × α) → String → Option α
  | [], _ => Option.none
  | (k0, v0) :: rest, k => if k0 = k then some v0 else dictGet rest k

def dictInsert {α : Type} : List (String × α) → String → α → List (String × α)
  | [], k, v => [(k, v)]
  | (k0, v0) :: rest, k, v =>
    if k0 = k then (k, v) :: rest else (k0, v0) :: dictInsert rest k v

theorem dictGet_insert {α : Type} (m : List (String × α)) (k k' : String) (v : α) :
    dictGet (dictInsert m k v) k' = if k = k' then some v else dictGet m k' := by
  induction m with
  | nil => by_cases h : k = k' <;> simp [dictInsert, dictGet, h]
  | cons hd rest ih =>
      obtain ⟨k0, v0⟩ := hd
      by_cases h0 : k0 = k
      · subst h0
        by_cases h : k0 = k' <;> simp [dictInsert, dictGet, h]
      · by_cases h : k0 = k'
        · subst h
          have hkk : ¬ k = k0 := fun hc => h0 hc.symm
          simp [dictInsert, dictGet, h0, hkk]
        · simp [dictInsert, dictGet, h0, h, ih]

/-! ## Section processor construction (`BaseDPPSection.__init__`)

`app/services/dpp/sections.py`, lines 16-37: the constructor walks
`aas_data["submodels"]` in order and files each submodel under its
`administration.templateId` (and under its `idShort`); a plain dict assignment
means a later submodel with the same template id *overwrites* an earlier one. -/

/-- The fields of a serialized submodel (or unresolved reference marker) that
section processing reads during construction and availability checks.  A
marker entry has neither `administration.templateId` nor `idShort`. -/
structure SubmodelJson where
  id : String
  templateId? : Option String
  idShort? : Option String
  deriving DecidableEq

/-- The `self.submodels` map built by `BaseDPPSection.__init__` (lines 22-25):
`for sm in submodels: if templateId: self.submodels[templateId] = sm`. -/
def submodelsByTemplateId (sms : List SubmodelJson) : List (String × SubmodelJson) :=
  sms.foldl
    (fun m sm =>
      match sm.templateId? with
      | some t => dictInsert m t sm
      | Option.none => m)
    []

/-- The `self.submodel_by_id_short` map built by the same loop (lines 27-29). -/
def submodelsByIdShort (sms : List SubmodelJson) : List (String × SubmodelJson) :=
  sms.foldl
    (fun m sm =>
      match sm.idShort? with
      | some i => dictInsert m i sm
      | Option.none => m)
    []

/-- `BaseDPPSection.get_submodel(template_id)` (lines 31-33). -/
def get_submodel (sms : List SubmodelJson) (template_id : String) : Option SubmodelJson :=
  dictGet (submodelsByTemplateId sms) template_id

/-- The *last* submodel of the aggregate whose template lineage id is `tid`
(stated from the spec's wording, for comparison with `get_submodel`). -/
def lastMatchingSubmodel (sms : List SubmodelJson) (tid : String) : Option SubmodelJson :=
  (sms.filter (fun sm => sm.templateId? = some tid)).getLast?

theorem getLast?_cons_isSome {α : Type} (y : α) :
    ∀ ys : List α, ∃ z, (y :: ys).getLast? = some z := by
  intro ys
  induction ys generalizing y with
  | nil => exact ⟨y, rfl⟩
  | cons a as ih =>
      obtain ⟨z, hz⟩ := ih a
      exact ⟨z, by rw [List.getLast?_cons_cons, hz]⟩

theorem getLast?_cons_or {α : Type} (x : α) (l : List α) :
    (x :: l).getLast? = Option.or l.getLast? (some x) := by
  cases l with
  | nil => rfl
  | cons y ys =>
      obtain ⟨z, hz⟩ := getLast?_cons_isSome y ys
      rw [List.getLast?_cons_cons, hz]
      rfl

theorem or_some_left {α : Type} (a : α) (o : Option α) : Option.or (some a) o = some a := rfl

theorem lastMatching_cons (sm : SubmodelJson) (rest : List SubmodelJson) (tid : String) :
    lastMatchingSubmodel (sm :: rest) tid
      = if sm.templateId? = some tid
        then Option.or (lastMatchingSubmodel rest tid) (some sm)
        else lastMatchingSubmodel rest tid := by
  unfold lastMatchingSubmodel
  by_cases h : sm.templateId? = some tid
  · rw [if_pos h]
    rw [show List.filter (fun sm => decide (sm.templateId? = some tid)) (sm :: rest)
        = sm :: List.filter (fun sm => decide (sm.templateId? = some tid)) rest from by
      simp [List.filter_cons, h]]
    exact getLast?_cons_or sm _
  · rw [if_neg h]
    rw [show List.filter (fun sm => decide (sm.templateId? = some tid)) (sm :: rest)
        = List.filter (fun sm => decide (sm.templateId? = some tid)) rest from by
      simp [List.filter_cons, h]]

theorem submodelsByTemplateId_foldl (tid : String) :
    ∀ (sms : List SubmodelJson) (acc : List (String × SubmodelJson)),
      dictGet (sms.foldl
          (fun m sm =>
            match sm.templateId? with
            | some t => dictInsert m t sm
            | Option.none => m)
          acc) tid
        = Option.or (lastMatchingSubmodel sms tid) (dictGet acc tid)
  | [], acc => rfl
  | sm :: rest, acc => by
      rw [List.foldl_cons, submodelsByTemplateId_foldl tid rest, lastMatching_cons]
      cases htid : sm.templateId? with
      | none => simp
      | some t =>
          by_cases ht : t = tid
          · subst ht
            simp [dictGet_insert, Option.or_assoc, or_some_left]
          · simp [dictGet_insert, ht]

/-- **C4 (counterexample).** With two submodels sharing template lineage id
`"T"`, section construction selects the *second* one, not the first: the dict
assignment in `__init__` overwrites the earlier entry. -/
theorem C4_first_match_counterexample :
    get_submodel
        [⟨"urn:sm:a", some "T", some "Nameplate"⟩, ⟨"urn:sm:b", some "T", some "Nameplate"⟩]
        "T"
      = some ⟨"urn:sm:b", some "T", some "Nameplate"⟩
    ∧ (⟨"urn:sm:b", some "T", some "Nameplate"⟩ : SubmodelJson)
      ≠ ⟨"urn:sm:a", some "T", some "Nameplate"⟩ := by
  constructor
  · rfl
  · decide

/-- **C4 (amended).** When several submodels of the aggregate share the same
template lineage id, section processing selects the *last* such submodel in
the aggregate's submodel order as the section's source. -/
theorem C4_last_match_per_template_id (sms : List SubmodelJson) (tid : String) :
    get_submodel sms tid = lastMatchingSubmodel sms tid := by
  unfold get_submodel submodelsByTemplateId
  rw [submodelsByTemplateId_foldl tid sms []]
  simp [dictGet]

/-! ## Submodel element update (`update_submodel_data`)

`app/services/aas/services.py`, lines 209-398.  The deserialized submodel is
modelled by its canonical-path-indexed element map: the `walk_submodel`
traversal and the parent-chain climb of lines 249-260 are SDK-side tree
plumbing whose outcome is exactly this map (`"/"`-joined idShort chain per
element), and the serialization codec at the persistence boundary is an
external collaborator, so the stored form of a submodel is the same structure.
Each element carries the `str(element)` textual representation produced by the
external SDK as given data (`string_rep_map`, line 260). -/

/-- Element payload, by the branches of lines 372-382. -/
inductive ElemKind where
  | property (valueType : XsdType) (value : PyVal)
  | multiLang (pairs : List (PyVal × String))
  | file (value : String)
  | otherElement

/-- A walked element: its SDK string representation and its payload. -/
structure Elem where
  strRep : String
  kind : ElemKind

/-- A deserialized submodel.  `templateId?` is the stored
`administration.templateId` back-reference (read by DPP section processing). -/
structure SubObj where
  id : String
  idShort? : Option String
  templateId? : Option String
  elementMap : List (String × Elem)

/-- A persisted submodel record (`AASSubmodel.data`). -/
structure SubRecord where
  data : SubObj

/-- A persisted shell record, reduced to the fields the services read:
`ref.key[0].value` of each submodel reference, and the administrative
version consulted by the DPP metadata block. -/
structure ShellData where
  id : String
  submodelRefs : List String
  adminVersion? : Option String

/-- Everything after the first occurrence of `sep`
(Python `s.split(sep, 1)[1]`), or `none` when `sep` does not occur. -/
def afterFirstChar (sep : Char) : List Char → Option (List Char)
  | [] => Option.none
  | c :: rest => if c = sep then some rest else afterFirstChar sep rest

/-- `str.split` on the three-character separator `" / "` (left-to-right,
non-overlapping), used on `str(element)` at line 271. -/
def splitSep3 (p1 p2 p3 : Char) : List Char → List (List Char)
  | a :: b :: c :: rest =>
    if a = p1 ∧ b = p2 ∧ c = p3 then [] :: splitSep3 p1 p2 p3 rest
    else
      match splitSep3 p1 p2 p3 (b :: c :: rest) with
      | h :: t => (a :: h) :: t
      | [] => [[a]]
  | cs => [cs]

/-- `str.replace` for a two-character pattern replaced by one character
(`.replace("//", "/")`, line 282): left-to-right, non-overlapping. -/
def replaceTwo (p1 p2 r : Char) : List Char → List Char
  | a :: b :: rest =>
    if a = p1 ∧ b = p2 then r :: replaceTwo p1 p2 r rest
    else a :: replaceTwo p1 p2 r (b :: rest)
  | cs => cs

/-- Apply `f` to the last entry of a list (`parts[-1] = ...`). -/
def updateLast {α : Type} (f : α → α) : List α → List α
  | [] => []
  | [x] => [f x]
  | x :: rest => x :: updateLast f rest

/-- Lines 271-282: parse one `str(element)` representation into the cleaned
`"/"`-joined path.  Returns `none` when the representation carries no
`" / "`-separated chain (the `continue` cases: no `" / "` in the string, or
fewer than two parts). -/
def parseCleanPath (es : String) : Option String :=
  let parts := splitSep3 ' ' '/' ' ' es.data
  if parts.length < 2 then Option.none
  else
    -- parts[0] = parts[0].split("[", 1)[1] if "[" in parts[0] else parts[0]
    let parts :=
      match parts with
      | p0 :: rest =>
        (match afterFirstChar '[' p0 with
          | some tailPart => tailPart
          | Option.none => p0) :: rest
      | [] => []
    -- if "]" in parts[-1]: parts[-1] = parts[-1].split("]")[0]
    let parts := updateLast
      (fun p => if p.contains ']' then p.takeWhile (fun c => c ≠ ']') else p) parts
    -- clean_parts = [part.strip() for part in parts]
    let cleanParts := parts.map stripChars
    -- clean_path = "/".join(clean_parts).replace("//", "/")
    some (String.mk (replaceTwo '/' '/' '/' (List.intercalate ['/'] cleanParts)))

/-- Lines 284-298: the full (idShort + identifier prefixed) and simplified
(idShort prefixed) external variants of a cleaned path.  `if sub_obj.id_short:`
is Python truthiness, so a missing *or empty* idShort yields the bare cleaned
path.  The "cleanup loop" of lines 300-304 rebinds its loop variable and never
stores its result, so it has no effect and is not modelled. -/
def subPrefixes (sub : SubObj) (clean : String) : String × String :=
  match sub.idShort? with
  | some isrt =>
    if isrt ≠ "" then
      (if clean ≠ "" then isrt ++ "/" ++ sub.id ++ "/" ++ clean else isrt,
       if clean ≠ "" then isrt ++ "/" ++ clean else isrt)
    else (clean, clean)
  | Option.none => (clean, clean)

/-- Lines 262-312: build `indexed_paths` (full external path → canonical path)
and `simplified_indexed_paths` (simplified external path → canonical path)
from the element map, in walk order. -/
def buildIndexedPaths (sub : SubObj) : List (String × String) × List (String × String) :=
  sub.elementMap.foldl
    (fun maps entry =>
      match parseCleanPath entry.2.strRep with
      | Option.none => maps
      | some clean =>
        let (full, simple) := subPrefixes sub clean
        (dictInsert maps.1 full entry.1, dictInsert maps.2 simple entry.1))
    ([], [])

/-- `frontend_path.replace("[", "/").replace("]", "")` (lines 339, 343, 352). -/
def normalizeBrackets (p : String) : String :=
  String.mk (((p.data.map (fun c => if c = '[' then '/' else c)).filter (fun c => c ≠ ']')))

/-- First map entry whose *normalized* key equals the normalized supplied path
(lines 342-356), in insertion order. -/
def findNormalized (np : String) : List (String × String) → Option String
  | [] => Option.none
  | (k, v) :: rest => if normalizeBrackets k = np then some v else findNormalized np rest

/-- `path.endswith(suffix)`. -/
def pyEndsWith (s suffix : String) : Bool := suffix.data.isSuffixOf s.data

/-- First element-map entry whose canonical path ends in `"/" + basename`
(lines 359-365). -/
def findBasename (basename : String) : List (String × Elem) → Option String
  | [] => Option.none
  | (path, _) :: rest =>
    if pyEndsWith path ("/" ++ basename) then some path else findBasename basename rest

/-- Lines 317-365: resolve a supplied frontend path to the canonical path of a
stored element, trying in order with early exit:
1. exact match in the canonical element map;
2. exact match in the simplified external map;
3. exact match in the full external map;
4. normalized bracket matching, simplified map first, then full map;
5. trailing-basename fallback (only when the path contains `/`).
Returns `none` when no strategy matches (the path is then skipped). -/
def resolveFrontendPath (em : List (String × Elem))
    (simplified indexed : List (String × String)) (p : String) : Option String :=
  match dictGet em p with
  | some _ => some p
  | Option.none =>
  match dictGet simplified p with
  | some t => some t
  | Option.none =>
  match dictGet indexed p with
  | some t => some t
  | Option.none =>
    let np := normalizeBrackets p
    match findNormalized np simplified with
    | some t => some t
    | Option.none =>
    match findNormalized np indexed with
    | some t => some t
    | Option.none =>
      if p.data.contains '/' then
        match (splitChar '/' p.data).getLast? with
        | some bn => findBasename (String.mk bn) em
        | Option.none => Option.none
      else Option.none

/-- Lines 375-378: rebuild the language list for a `MultiLanguageProperty`.
Subscripting a non-dict item raises `TypeError`; a dict item without the
`language` or `text` key raises `KeyError` (neither is caught by the
surrounding `except ValueError`). -/
def buildLangPairs : List PyVal → Except PyErr (List (PyVal × String))
  | [] => .ok []
  | .dict kvs :: rest =>
    (match dictGet kvs "language" with
      | Option.none => .error (.keyError "language")
      | some lang =>
        match dictGet kvs "text" with
        | Option.none => .error (.keyError "text")
        | some t => (buildLangPairs rest).map (fun ps => (lang, pyStr t) :: ps))
  | v :: _ => .error (.typeError (pyTypeName v ++ " is not subscriptable"))

/-- Lines 370-386: apply one value update to a resolved element.  A
`ValueError` from the body is re-raised as
`"Failed to update value at {frontend_path}: {e}"`; other exceptions
propagate unchanged.  An element that is neither a `MultiLanguageProperty`,
`File` nor `Property` matches no branch and is left unchanged — but the
update still counts as applied (the `updated_elements.append` of line 384 is
unconditional inside the `try`). -/
def applyValueUpdate (elem : Elem) (nv : PyVal) (p : String) : Except PyErr Elem :=
  let body : Except PyErr Elem :=
    match elem.kind with
    | .multiLang _ =>
      (match nv with
        | .list items =>
          (buildLangPairs items).map (fun pairs => { elem with kind := .multiLang pairs })
        | _ => .error (.valueError "Value for MultiLanguageProperty must be an array"))
    | .file _ =>
      .ok { elem with kind := .file (match nv with | .none => "" | v => pyStr v) }
    | .property vt _ =>
      (convert_value nv vt).map (fun cv => { elem with kind := .property vt cv })
    | .otherElement => .ok elem
  match body with
  | .ok e => .ok e
  | .error (.valueError m) =>
    .error (.valueError ("Failed to update value at " ++ p ++ ": " ++ m))
  | .error e => .error e

/-- Lines 315-386: the update loop.  Each entry of `new_data` is resolved
(against the original key set — value mutation never changes canonical paths)
and, when resolved, applied in memory; unresolved paths are skipped
(`continue`, line 368); `acc` accumulates `updated_elements`. -/
def applyUpdates (simplified indexed : List (String × String)) :
    List (String × Elem) → List (String × PyVal) → List String →
      Except PyErr (List (String × Elem) × List String)
  | em, [], acc => .ok (em, acc)
  | em, (p, nv) :: rest, acc =>
    match resolveFrontendPath em simplified indexed p with
    | Option.none => applyUpdates simplified indexed em rest acc
    | some target =>
      match dictGet em target with
      | Option.none => .error (.keyError target)
      | some elem =>
        match applyValueUpdate elem nv p with
        | .error e => .error e
        | .ok elem2 =>
          applyUpdates simplified indexed (dictInsert em target elem2) rest (acc ++ [target])

/-- `update_submodel_data(aas_id, submodel_id, new_data, session)`, lines
209-398.  Returns the submodel store after the call together with the
operation's outcome: the existence/membership checks of lines 230-241 raise
`ValueError`; after the loop, if at least one update matched the mutated
submodel is persisted and returned (lines 388-396), otherwise the original
stored form is returned with nothing persisted (line 398). -/
def update_submodel_data (assets : List (String × ShellData))
    (subs : List (String × SubRecord)) (aasId submodelId : String)
    (newData : List (String × PyVal)) :
    List (String × SubRecord) × Except PyErr SubObj :=
  match dictGet assets aasId with
  | Option.none => (subs, .error (.valueError ("No asset found with id " ++ aasId ++ ".")))
  | some shell =>
    if shell.submodelRefs.contains submodelId then
      match dictGet subs submodelId with
      | Option.none =>
        (subs, .error (.valueError ("No submodel found with id " ++ submodelId ++ ".")))
      | some srec =>
        let sub := srec.data
        let maps := buildIndexedPaths sub
        match applyUpdates maps.2 maps.1 sub.elementMap newData [] with
        | .error e => (subs, .error e)
        | .ok (em2, updated) =>
          if updated ≠ [] then
            let sub2 : SubObj := { sub with elementMap := em2 }
            (dictInsert subs submodelId { data := sub2 }, .ok sub2)
          else (subs, .ok srec.data)
    else
      (subs, .error (.valueError
        ("Submodel " ++ submodelId ++ " is not part of AAS " ++ aasId ++ ".")))

/-- **C5.** A supplied path that is no canonical path but an exact key of the
simplified external map is resolved by strategy 2, to that map's target —
independently of the full map's content and before any normalized bracket
matching could run (strategies 3-5 cannot influence the result). -/
theorem C5_simplified_exact_match_wins (em : List (String × Elem))
    (simplified indexed : List (String × String)) (p target : String)
    (h1 : dictGet em p = Option.none) (h2 : dictGet simplified p = some target) :
    resolveFrontendPath em simplified indexed p = some target := by
  unfold resolveFrontendPath
  rw [h1, h2]

/-- Witness for C5: the spec's own scenario — canonical path `A/B`, simplified
external alias `A/B[0]`; resolving `A/B[0]` hits strategy 2, even though the
full map carries a normalized-matching decoy pointing elsewhere. -/
theorem C5_simplified_exact_match_wins_witness :
    dictGet [("A/B", Elem.mk "Property[A / B]" (.property .string (.str "v")))] "A/B[0]"
        = Option.none
      ∧ dictGet [("A/B[0]", "A/B")] "A/B[0]" = some "A/B"
      ∧ resolveFrontendPath
          [("A/B", Elem.mk "Property[A / B]" (.property .string (.str "v")))]
          [("A/B[0]", "A/B")] [("A/B/0", "A/Decoy")] "A/B[0]"
        = some "A/B" :=
  ⟨rfl, rfl,
    C5_simplified_exact_match_wins _ _ _ _ _ rfl rfl⟩

/-- Helper: a batch in which no path resolves leaves the element map and the
accumulator untouched and succeeds. -/
theorem applyUpdates_all_unresolved (simplified indexed : List (String × String))
    (em : List (String × Elem)) :
    ∀ (ups : List (String × PyVal)) (acc : List String),
      (∀ pv ∈ ups, resolveFrontendPath em simplified indexed pv.1 = Option.none) →
      applyUpdates simplified indexed em ups acc = .ok (em, acc)
  | [], acc, _ => rfl
  | (p, nv) :: rest, acc, h => by
      have hp := h (p, nv) (List.mem_cons_self _ _)
      have hrest := applyUpdates_all_unresolved simplified indexed em rest acc
        (fun pv hpv => h pv (List.mem_cons_of_mem _ hpv))
      simp only [applyUpdates, hp]
      exact hrest

/-- **C6.** (a) An update entry whose path resolves to no node is skipped: the
loop continues on the remaining batch with unchanged state, raising nothing.
(b) When *no* path of the batch resolves, the operation returns the original
stored form of the submodel and persists nothing: the submodel store after the
call is the store before it. -/
theorem C6_unresolvable_paths_skipped_and_noop :
    (∀ (simplified indexed : List (String × String)) (em : List (String × Elem))
        (p : String) (nv : PyVal) (rest : List (String × PyVal)) (acc : List String),
        resolveFrontendPath em simplified indexed p = Option.none →
        applyUpdates simplified indexed em ((p, nv) :: rest) acc
          = applyUpdates simplified indexed em rest acc)
    ∧ (∀ (assets : List (String × ShellData)) (subs : List (String × SubRecord))
        (aasId submodelId : String) (newData : List (String × PyVal))
        (shell : ShellData) (srec : SubRecord),
        dictGet assets aasId = some shell →
        shell.submodelRefs.contains submodelId = true →
        dictGet subs submodelId = some srec →
        (∀ pv ∈ newData,
          resolveFrontendPath srec.data.elementMap (buildIndexedPaths srec.data).2
            (buildIndexedPaths srec.data).1 pv.1 = Option.none) →
        update_submodel_data assets subs aasId submodelId newData
          = (subs, .ok srec.data)) := by
  constructor
  · intro simplified indexed em p nv rest acc h
    simp only [applyUpdates, h]
  · intro assets subs aasId submodelId newData shell srec hA hRef hS hNone
    unfold update_submodel_data
    simp only [hA, hRef, hS]
    rw [applyUpdates_all_unresolved _ _ _ newData [] hNone]
    simp

/-- **C9.** If the batched update raises (in particular when a value fails type
conversion mid-batch, after earlier entries were already applied in memory),
the persisted submodel store is exactly what it was before the call, and the
error from the loop is surfaced unchanged. -/
theorem C9_error_leaves_store_unchanged :
    (∀ (assets : List (String × ShellData)) (subs subs2 : List (String × SubRecord))
        (aasId submodelId : String) (newData : List (String × PyVal)) (e : PyErr),
        update_submodel_data assets subs aasId submodelId newData = (subs2, .error e) →
        subs2 = subs)
    ∧ (∀ (assets : List (String × ShellData)) (subs : List (String × SubRecord))
        (aasId submodelId : String) (newData : List (String × PyVal))
        (shell : ShellData) (srec : SubRecord) (e : PyErr),
        dictGet assets aasId = some shell →
        shell.submodelRefs.contains submodelId = true →
        dictGet subs submodelId = some srec →
        applyUpdates (buildIndexedPaths srec.data).2 (buildIndexedPaths srec.data).1
          srec.data.elementMap newData [] = .error e →
        update_submodel_data assets subs aasId submodelId newData = (subs, .error e)) := by
  constructor
  · intro assets subs subs2 aasId submodelId newData e h
    unfold update_submodel_data at h
    cases hA : dictGet assets aasId with
    | none =>
        simp only [hA] at h
        injection h with h1 h2
        exact h1.symm
    | some shell =>
        simp only [hA] at h
        cases hRef : shell.submodelRefs.contains submodelId with
        | false =>
            simp only [hRef, Bool.false_eq_true, if_false] at h
            injection h with h1 h2
            exact h1.symm
        | true =>
            simp only [hRef, if_true] at h
            cases hS : dictGet subs submodelId with
            | none =>
                simp only [hS] at h
                injection h with h1 h2
                exact h1.symm
            | some srec =>
                simp only [hS] at h
                cases hU : applyUpdates (buildIndexedPaths srec.data).2
                    (buildIndexedPaths srec.data).1 srec.data.elementMap newData [] with
                | error e2 =>
                    simp only [hU] at h
                    injection h with h1 h2
                    exact h1.symm
                | ok r =>
                    obtain ⟨em2, updated⟩ := r
                    simp only [hU] at h
                    by_cases hup : updated ≠ []
                    · rw [if_pos hup] at h
                      injection h with h1 h2
                      injection h2
                    · rw [if_neg hup] at h
                      injection h with h1 h2
                      injection h2
  · intro assets subs aasId submodelId newData shell srec e hA hRef hS hU
    unfold update_submodel_data
    simp only [hA, hRef, hS, if_true]
    rw [hU]

/-! ### Concrete fixtures for the update-service witnesses -/

/-- A string-typed property element with its SDK string representation. -/
def serialElem : Elem :=
  ⟨"Property[urn:sub:1 / SerialNumber]", .property .string (.str "OLD")⟩

/-- A boolean-typed property element. -/
def flagElem : Elem :=
  ⟨"Property[urn:sub:1 / Flag]", .property .boolean (.bool false)⟩

/-- A concrete stored submodel with two properties. -/
def nameplateSub : SubObj :=
  ⟨"urn:sub:1", some "Nameplate",
    some "https://admin-shell.io/idta/SubmodelTemplate/DigitalNameplate/3/0",
    [("Nameplate/SerialNumber", serialElem), ("Nameplate/Flag", flagElem)]⟩

/-- A concrete asset store with one shell referencing the submodel. -/
def fixtureAssets : List (String × ShellData) :=
  [("urn:aas:1", ⟨"urn:aas:1", ["urn:sub:1"], Option.none⟩)]

/-- A concrete submodel store. -/
def fixtureSubs : List (String × SubRecord) :=
  [("urn:sub:1", ⟨nameplateSub⟩)]

/-- A batch whose first entry converts fine and whose second entry fails
boolean conversion. -/
def mixedBatch : List (String × PyVal) :=
  [("Nameplate/SerialNumber", .str "XYZ-1"), ("Nameplate/Flag", .str "notabool")]

/-- Witness for C6 at a concrete store and a batch whose single path matches
nothing: the loop skips it and the operation is a no-op returning the stored
form. -/
theorem C6_unresolvable_paths_witness :
    applyUpdates [] [] [] [("Bogus/Path", PyVal.str "x")] []
        = applyUpdates [] [] [] [] []
      ∧ update_submodel_data fixtureAssets fixtureSubs "urn:aas:1" "urn:sub:1"
          [("Bogus/Path", PyVal.str "x")]
        = (fixtureSubs, .ok nameplateSub) :=
  ⟨C6_unresolvable_paths_skipped_and_noop.1 [] [] [] "Bogus/Path" (PyVal.str "x") [] [] rfl,
    C6_unresolvable_paths_skipped_and_noop.2 fixtureAssets fixtureSubs "urn:aas:1"
      "urn:sub:1" [("Bogus/Path", PyVal.str "x")]
      ⟨"urn:aas:1", ["urn:sub:1"], Option.none⟩ ⟨nameplateSub⟩ rfl rfl rfl
      (fun pv hpv => by
        rw [List.mem_singleton] at hpv
        subst hpv
        rfl)⟩

/-- Witness for C9 at a concrete store: the first batch entry is applied in
memory, the second fails boolean conversion; the operation surfaces the
wrapped conversion error and the submodel store is unchanged. -/
theorem C9_error_leaves_store_unchanged_witness :
    (update_submodel_data fixtureAssets fixtureSubs "urn:aas:1" "urn:sub:1" mixedBatch).2
        = .error (.valueError
          "Failed to update value at Nameplate/Flag: Cannot convert notabool to xs:boolean.")
      ∧ (update_submodel_data fixtureAssets fixtureSubs "urn:aas:1" "urn:sub:1" mixedBatch).1
        = fixtureSubs :=
  ⟨rfl,
    C9_error_leaves_store_unchanged.1 fixtureAssets fixtureSubs _ "urn:aas:1" "urn:sub:1"
      mixedBatch _ rfl⟩

/-! ## Aggregate assembly (`get_asset_by_id`)

`app/services/aas/services.py`, lines 132-162: the stored shell is
deserialized and each submodel reference (`ref.key[0].value`) is replaced by
the resolved submodel body when the referenced record exists, or left in the
list as the unresolved reference itself when it does not (lines 148-157; a
record that was just registered in the in-memory store always resolves, and
the `resolved is None` fallback of line 155 likewise appends the reference).
Deserialization/serialization at the boundary is the external codec. -/

/-- An entry of the aggregate's resolved submodel list. -/
inductive SubEntry where
  | resolved (sub : SubObj)
  | refMarker (submodelId : String)

/-- The in-memory aggregate: the shell with its submodel references replaced
by resolved bodies or left as markers. -/
structure Aggregate where
  id : String
  submodels : List SubEntry
  adminVersion? : Option String

/-- The per-reference resolution step of the loop (lines 145-157). -/
def resolveRef (subs : List (String × SubRecord)) (r : String) : SubEntry :=
  match dictGet subs r with
  | some srec => .resolved srec.data
  | Option.none => .refMarker r

/-- `get_asset_by_id(aas_id, session)`, lines 132-162. -/
def get_asset_by_id (assets : List (String × ShellData))
    (subs : List (String × SubRecord)) (aasId : String) : Except PyErr Aggregate :=
  match dictGet assets aasId with
  | Option.none => .error (.valueError ("No asset found with id " ++ aasId ++ "."))
  | some shell =>
    .ok ⟨shell.id, shell.submodelRefs.map (resolveRef subs), shell.adminVersion?⟩

/-- **C8.** For every stored shell, aggregate assembly succeeds (it never
raises because of a missing submodel): the result has one entry per submodel
reference, in order, and each entry is the resolved body when the referenced
submodel exists in the store and the unresolved reference marker when it does
not. -/
theorem C8_missing_submodels_leave_markers (assets : List (String × ShellData))
    (subs : List (String × SubRecord)) (aasId : String) (shell : ShellData)
    (hA : dictGet assets aasId = some shell) :
    ∃ agg : Aggregate,
      get_asset_by_id assets subs aasId = .ok agg
        ∧ ∀ i : Nat,
            agg.submodels[i]?
              = (shell.submodelRefs[i]?).map (fun r =>
                  match dictGet subs r with
                  | some srec => SubEntry.resolved srec.data
                  | Option.none => SubEntry.refMarker r) := by
  refine ⟨⟨shell.id, shell.submodelRefs.map (resolveRef subs), shell.adminVersion?⟩, ?_, ?_⟩
  · unfold get_asset_by_id
    rw [hA]
  · intro i
    simp only [List.getElem?_map]
    cases shell.submodelRefs[i]? with
    | none => rfl
    | some r => rfl

/-- A shell referencing one stored and one missing submodel. -/
def fixtureAssetsPartial : List (String × ShellData) :=
  [("urn:aas:2", ⟨"urn:aas:2", ["urn:sub:1", "urn:missing"], Option.none⟩)]

/-- Witness for C8: one reference resolves, the other is left as a marker,
and assembly succeeds. -/
theorem C8_missing_submodels_leave_markers_witness :
    dictGet fixtureAssetsPartial "urn:aas:2"
        = some ⟨"urn:aas:2", ["urn:sub:1", "urn:missing"], Option.none⟩
      ∧ ∃ agg : Aggregate,
          get_asset_by_id fixtureAssetsPartial fixtureSubs "urn:aas:2" = .ok agg
            ∧ ∀ i : Nat,
                agg.submodels[i]?
                  = ((["urn:sub:1", "urn:missing"] : List String)[i]?).map (fun r =>
                      match dictGet fixtureSubs r with
                      | some srec => SubEntry.resolved srec.data
                      | Option.none => SubEntry.refMarker r) :=
  ⟨rfl,
    C8_missing_submodels_leave_markers fixtureAssetsPartial fixtureSubs "urn:aas:2"
      ⟨"urn:aas:2", ["urn:sub:1", "urn:missing"], Option.none⟩ rfl⟩

/-! ## Complete DPP generation (`generate_complete_dpp`)

`app/services/dpp/services.py`, lines 43-88, together with the section
processor table of `app/services/dpp/sections.py` (lines 2145-2155) and the
`SubmodelIdentifiers` attribute table of `app/services/dpp/config.py`
(lines 5-23). -/

/-- The class attributes of `SubmodelIdentifiers` (config.py, lines 5-23).
Accessing any other attribute name on the class raises `AttributeError`. -/
def submodelIdentifiersAttr : String → Option String
  | "NAMEPLATE" => some "https://admin-shell.io/idta/SubmodelTemplate/DigitalNameplate/3/0"
  | "TECHNICAL_DATA" => some "https://admin-shell.io/ZVEI/TechnicalData/Submodel/1/2"
  | "CARBON_FOOTPRINT" => some "https://admin-shell.io/idta/SubmodelTemplate/CarbonFootprint/0/9"
  | "CONTACT" => some "https://admin-shell.io/idta/SubmodelTemplate/ContactInformation/1/0"
  | "DOCUMENTATION" => some "https://admin-shell.io/idta/SubmodelTemplate/HandoverDocumentation/1/0"
  | "HIERARCHY" => some "https://admin-shell.io/idta/SubmodelTemplate/HierarchicalStructuresBoM/1/1"
  | "ASSET_LOCATION" => some "https://admin-shell.io/idta/SubmodelTemplate/DataModelforAssetLocation/1/0"
  | "TIME_SERIES" => some "https://admin-shell.io/idta/SubmodelTemplate/TimeSeries/1/1"
  | _ => Option.none

/-- `SECTION_PROCESSORS` (sections.py, lines 2145-2155) in dict insertion
order, each section id paired with the `SubmodelIdentifiers` attribute name
its processor's `process` method reads first (lines 543, 879, 727, 1163, 798,
1307, 621, 1442, 1927).  `MaterialSection` reads `HIERARCHICAL_STRUCTURE` and
`BusinessInfoSection` reads `CONTACT_INFORMATION`; neither attribute is
defined in `config.py` (which defines `HIERARCHY` and `CONTACT` instead). -/
def sectionProcessors : List (String × String) :=
  [("identification", "NAMEPLATE"),
   ("compliance", "NAMEPLATE"),
   ("technical", "TECHNICAL_DATA"),
   ("materials", "HIERARCHICAL_STRUCTURE"),
   ("sustainability", "CARBON_FOOTPRINT"),
   ("documentation", "DOCUMENTATION"),
   ("business", "CONTACT_INFORMATION"),
   ("location", "ASSET_LOCATION"),
   ("usage", "TIME_SERIES")]

/-- The fixed titles each processor passes to `DPPSection(title=...)`. -/
def sectionTitle : String → String
  | "identification" => "Product Identification"
  | "compliance" => "Compliance & Standards"
  | "technical" => "Technical Data"
  | "materials" => "Materials & Composition"
  | "sustainability" => "Environmental Impact"
  | "documentation" => "Documentation"
  | "business" => "Business Information"
  | "location" => "Asset Location & Traceability"
  | "usage" => "Usage Data"
  | _ => ""

/-- A produced DPP section, reduced to the data the claims consult: its title
and the submodel it was sourced from.  The per-section idShort → output field
tables of sections.py are consulted by no claim, and in
`generate_complete_dpp` control flow never reaches a section body past the
materials processor (see C1). -/
structure DPPSection where
  title : String
  source : SubmodelJson

/-- The serialized aggregate entries as `BaseDPPSection.__init__` reads them:
a resolved submodel contributes its `administration.templateId` and `idShort`,
an unresolved reference marker carries neither. -/
def aggregateSubmodelJsons (agg : Aggregate) : List SubmodelJson :=
  agg.submodels.map fun e =>
    match e with
    | .resolved sub => ⟨sub.id, sub.templateId?, sub.idShort?⟩
    | .refMarker r => ⟨r, Option.none, Option.none⟩

/-- One `processor_class(aas_data).process()` step of the
`generate_complete_dpp` loop, to the depth the claims consult: the processor
first reads its `SubmodelIdentifiers` attribute — an undefined name raises
`AttributeError` before anything else runs — then consults the constructor's
template-id map and returns `None` when its submodel is absent (the
`if not <submodel>: return None` guard opening every `process`).  The deeper
availability refinements of the post-materials processors (e.g. the
ContactInformation / carbon-footprint content checks) sit behind an attribute
access or behind the materials processor in loop order and are unreachable. -/
def processSection (sms : List SubmodelJson) (sectionId attrName : String) :
    Except PyErr (Option DPPSection) :=
  match submodelIdentifiersAttr attrName with
  | Option.none => .error (.attributeError "SubmodelIdentifiers" attrName)
  | some tid =>
    match get_submodel sms tid with
    | Option.none => .ok Option.none
    | some sm => .ok (some ⟨sectionTitle sectionId, sm⟩)

/-- The `for section_id, processor_class in SECTION_PROCESSORS.items()` loop
(services.py, lines 62-69): a raised exception aborts the whole loop; a `None`
section is skipped; a produced section is filed under its section id.  (The
per-section `clean_nulls` post-processing of line 68 operates on the section
body, which no claim consults and which the loop never reaches producing.) -/
def processAllSections (sms : List SubmodelJson) :
    List (String × String) → Except PyErr (List (String × DPPSection))
  | [] => .ok []
  | (sid, attr) :: rest =>
    match processSection sms sid attr with
    | .error e => .error e
    | .ok Option.none => processAllSections sms rest
    | .ok (some sec) => (processAllSections sms rest).map (fun l => (sid, sec) :: l)

/-- `str(e)` for the modelled exceptions (Python's quote characters around
interpolated names are elided). -/
def pyErrStr : PyErr → String
  | .valueError m => m
  | .typeError m => m
  | .keyError k => k
  | .attributeError t a => "type object " ++ t ++ " has no attribute " ++ a

/-- The generation metadata block (services.py, lines 72-78). -/
structure DppMetadata where
  generatedBy : String
  generatedAt : String
  aasVersion? : Option String
  format : String
  sourceAasId : String

/-- The whole-document aggregate (`CompleteDPP`, lines 80-86). -/
structure CompleteDPP where
  id : String
  generatedAt : String
  format : String
  sections : List (String × DPPSection)
  metadata : DppMetadata

/-- `generate_complete_dpp(aas_id, format, session)`, services.py lines 43-88.
`now` stands for `datetime.utcnow().isoformat()`.  The surrounding
`try/except Exception` re-raises any exception as
`ValueError(f"Error generating complete DPP: {e}")`. -/
def generate_complete_dpp (assets : List (String × ShellData))
    (subs : List (String × SubRecord)) (aasId format now : String) :
    Except PyErr CompleteDPP :=
  let attempt : Except PyErr CompleteDPP :=
    match get_asset_by_id assets subs aasId with
    | .error e => .error e
    | .ok agg =>
      match processAllSections (aggregateSubmodelJsons agg) sectionProcessors with
      | .error e => .error e
      | .ok secs =>
        .ok
          { id := aasId
            generatedAt := now
            format := format
            sections := secs
            metadata :=
              { generatedBy := "DPP Service v1.0"
                generatedAt := now
                aasVersion? := agg.adminVersion?
                format := format
                sourceAasId := aasId } }
  match attempt with
  | .ok d => .ok d
  | .error e => .error (.valueError ("Error generating complete DPP: " ++ pyErrStr e))

/-- The section loop always dies at the materials processor: whatever the
aggregate contains, `MaterialSection.process` reads the undefined
`SubmodelIdentifiers.HIERARCHICAL_STRUCTURE` attribute. -/
theorem processAllSections_hits_materials (sms : List SubmodelJson) :
    processAllSections sms sectionProcessors
      = .error (.attributeError "SubmodelIdentifiers" "HIERARCHICAL_STRUCTURE") := by
  unfold sectionProcessors
  cases hq1 : get_submodel sms
      "https://admin-shell.io/idta/SubmodelTemplate/DigitalNameplate/3/0" with
  | none =>
      cases hq2 : get_submodel sms "https://admin-shell.io/ZVEI/TechnicalData/Submodel/1/2" with
      | none => simp [processAllSections, processSection, submodelIdentifiersAttr, hq1, hq2, Except.map]
      | some sm2 => simp [processAllSections, processSection, submodelIdentifiersAttr, hq1, hq2, Except.map]
  | some sm1 =>
      cases hq2 : get_submodel sms "https://admin-shell.io/ZVEI/TechnicalData/Submodel/1/2" with
      | none => simp [processAllSections, processSection, submodelIdentifiersAttr, hq1, hq2, Except.map]
      | some sm2 => simp [processAllSections, processSection, submodelIdentifiersAttr, hq1, hq2, Except.map]

/-- **C1 (code-bug evaluation).** For *every* stored asset, the complete-DPP
download does not return a whole-document aggregate at all: the section loop
reaches the materials processor, whose first statement reads the undefined
`SubmodelIdentifiers.HIERARCHICAL_STRUCTURE` attribute, and the resulting
`AttributeError` aborts the whole generation (re-raised as the wrapping
`ValueError`) instead of the section being skipped. -/
theorem C1_complete_dpp_generation_always_aborts (assets : List (String × ShellData))
    (subs : List (String × SubRecord)) (aasId fmt now : String) (shell : ShellData)
    (hA : dictGet assets aasId = some shell) :
    generate_complete_dpp assets subs aasId fmt now
      = .error (.valueError
        ("Error generating complete DPP: type object SubmodelIdentifiers has no attribute HIERARCHICAL_STRUCTURE")) := by
  unfold generate_complete_dpp get_asset_by_id
  simp only [hA]
  rw [processAllSections_hits_materials]
  rfl

/-- Witness for C1 at a concrete stored asset (a shell with no submodels,
clean format). -/
theorem C1_complete_dpp_generation_always_aborts_witness :
    generate_complete_dpp [("urn:aas:empty", ⟨"urn:aas:empty", [], Option.none⟩)] []
        "urn:aas:empty" "clean" "2026-02-03T04:05:06"
      = .error (.valueError
        ("Error generating complete DPP: type object SubmodelIdentifiers has no attribute HIERARCHICAL_STRUCTURE")) :=
  C1_complete_dpp_generation_always_aborts _ _ _ _ _
    ⟨"urn:aas:empty", [], Option.none⟩ rfl

end DppPilot
